import Mathlib

/-!
Verification of the retrieval pipeline of the LangChain RAG repository.

Build side (src/database.py): `split_documents` (chunking with offsets),
`save_to_chroma` (full-replace index build), and `generate_data_store`
(the rebuild pipeline).  Query side (src/query.py): `main`, which runs a
similarity search, assembles a context and prompt, invokes a completion
capability, and collects source citations.

External collaborators (the text splitter, the Chroma vector store, the
embedding and completion capabilities) are not part of this repository's
sources; where a definition depends on their behaviour it is modelled
from the specification's contract for them and marked as such in its
doc comment.
-/

namespace Rag

/-- A query-side document as returned by the vector store: its text
(`page_content` in the source) and its metadata dictionary, modelled as
an association list (Python `dict.get(key, None)` becomes `List.lookup`). -/
structure QDoc where
  pageContent : String
  metadata : List (String × String)
deriving DecidableEq, Repr

/-- The delimiter joined between retrieved chunk texts in src/query.py:
`"\n\n---\n\n".join(...)`. -/
def sepDelim : String := "\n\n---\n\n"

/-- Context assembly from src/query.py line 42:
`context_text = "\n\n---\n\n".join([doc.page_content for doc, _score in results])`. -/
def contextText (results : List (QDoc × ℚ)) : String :=
  String.intercalate sepDelim (results.map (fun p => p.1.pageContent))

/-- The prompt built from PROMPT_TEMPLATE in src/query.py by
`prompt_template.format(context=context_text, question=query)`:
the template's literal segments with the two slots substituted. -/
def promptFor (context question : String) : String :=
  "\nYou are a helpful assistant. Use the following context to answer the user's question.\n\nContext:\n"
    ++ context ++ "\n\nQuestion:\n" ++ question ++ "\n"

/-- Source collection from src/query.py line 53:
`sources = [doc.metadata.get("source", None) for doc, _score in results]`. -/
def sourcesOf (results : List (QDoc × ℚ)) : List (Option String) :=
  results.map (fun p => p.1.metadata.lookup "source")

/-- The observable outcome of the query path of src/query.py `main`:
either the early return printing "Unable to find Relevance", or a
formatted response with its ordered source citations. -/
inductive QueryOutcome where
  | noResults
  | answered (responseText : String) (sources : List (Option String))
deriving DecidableEq, Repr

/-- The query path of src/query.py `main` after the similarity search:
if `len(results) == 0` it prints the no-results message and returns;
otherwise it assembles the context, formats the prompt, invokes the
completion capability (`llm.invoke(prompt)`, an external collaborator
passed here as the function `complete`) and collects the sources.
The second component counts how many times the completion capability
was invoked. -/
def runQuery (complete : String → String) (query : String)
    (results : List (QDoc × ℚ)) : QueryOutcome × Nat :=
  if results.length = 0 then
    (QueryOutcome.noResults, 0)
  else
    let prompt := promptFor (contextText results) query
    (QueryOutcome.answered (complete prompt) (sourcesOf results), 1)

/-- Concatenation of a list of texts separated by a delimiter, written
directly from the claim's words ("the concatenation of results[i].chunk.text
in the order provided, with consecutive texts separated by a fixed
multi-character sentinel delimiter"), to be compared with the source's
`String.intercalate`. -/
def joinWithSep (sep : String) : List String → String
  | [] => ""
  | [t] => t
  | t :: u :: ts => t ++ sep ++ joinWithSep sep (u :: ts)

/-- Helper for relating `String.intercalate` to `joinWithSep`: the
separator-prefixed concatenation of the remaining texts. -/
def sepTail (sep : String) : List String → String
  | [] => ""
  | t :: ts => sep ++ t ++ sepTail sep ts

theorem intercalate_go_eq (s : String) :
    ∀ (l : List String) (acc : String),
      String.intercalate.go acc s l = acc ++ sepTail s l := by
  intro l
  induction l with
  | nil => intro acc; simp [String.intercalate.go, sepTail]
  | cons a as ih =>
      intro acc
      have h1 : String.intercalate.go acc s (a :: as)
          = String.intercalate.go (acc ++ s ++ a) s as := rfl
      rw [h1, ih (acc ++ s ++ a)]
      simp [sepTail, String.append_assoc]

theorem joinWithSep_eq_sepTail (s : String) :
    ∀ (t : String) (ts : List String),
      joinWithSep s (t :: ts) = t ++ sepTail s ts := by
  intro t ts
  induction ts generalizing t with
  | nil => simp [joinWithSep, sepTail]
  | cons u us ih =>
      rw [joinWithSep, ih u]
      simp [sepTail, String.append_assoc]

theorem intercalate_eq_joinWithSep (s : String) (l : List String) :
    String.intercalate s l = joinWithSep s l := by
  cases l with
  | nil => rfl
  | cons a as =>
      rw [String.intercalate, intercalate_go_eq s as a, joinWithSep_eq_sepTail]

/-! ## Build side: src/database.py -/

/-- A build-side document as loaded by the document source: its text as a
character list and the path it came from.  The document source itself
(`DirectoryLoader` in src/database.py) is an external collaborator. -/
structure Document where
  pageContent : List Char
  source : String
deriving DecidableEq, Repr

/-- A chunk produced by the splitter: text, originating path, and
`start_index` positional metadata (`add_start_index=True` in
src/database.py `split_documents`). -/
structure Chunk where
  text : List Char
  source : String
  startIndex : Nat
deriving DecidableEq, Repr

/-- Modelled from the spec: the text splitter used by
src/database.py `split_documents` is the external
`RecursiveCharacterTextSplitter`, whose algorithm is not part of this
repository's sources.  Per the spec it produces overlapping fixed-size
chunks with positional metadata: text at or below `chunkSize` stays a
single chunk; longer text is cut at `chunkSize` and the splitter resumes
`overlap` characters before the cut (the separator-priority refinement of
the cut point is abstracted to the character level).  A configuration
with `chunkSize = 0` or `overlap ≥ chunkSize` would make no progress and
is rejected (spec: "must be rejected as a configuration error"),
modelled as producing no chunks. -/
def splitWithOffsets (chunkSize overlap off : Nat) (s : List Char) :
    List (Nat × List Char) :=
  if _h0 : chunkSize = 0 ∨ chunkSize ≤ overlap then []
  else if _h1 : s.length ≤ chunkSize then [(off, s)]
  else
    (off, s.take chunkSize) ::
      splitWithOffsets chunkSize overlap (off + (chunkSize - overlap))
        (s.drop (chunkSize - overlap))
termination_by s.length
decreasing_by
  simp only [List.length_drop]
  omega

/-- Chunking of one document with the configuration fixed in
src/database.py `split_documents`: `chunk_size=500, chunk_overlap=150,
add_start_index=True`. -/
def splitDocument (d : Document) : List Chunk :=
  (splitWithOffsets 500 150 0 d.pageContent).map
    (fun p => { text := p.2, source := d.source, startIndex := p.1 })

/-- src/database.py `split_documents`: chunks every document, then runs
the debug statements `document = chunks[10]; print(document.page_content)`.
Python raises `IndexError` when fewer than 11 chunks exist; the raised
exception is modelled as `none`. -/
def splitDocuments (docs : List Document) : Option (List Chunk) :=
  let chunks := docs.flatMap splitDocument
  match chunks[10]? with
  | none => none
  | some _ => some chunks

/-- The error taxonomy visible in the rebuild pipeline as embedded here:
the fatal embedding failure of the spec, and the `IndexError` escaping
from the debug statement in `split_documents`. -/
inductive PipeError where
  | embeddingError
  | indexError
deriving DecidableEq, Repr

/-- src/database.py `save_to_chroma`: removes any existing index at the
persist path (`shutil.rmtree`), then builds the new index from the chunks
(`Chroma.from_documents`) and persists it (`db.persist()`).
Modelled from the spec for the external Chroma store and embedding
capability: embedding each chunk may fail (`embed` returns `none`), a
single failure is fatal and aborts the rebuild, and entries reach the
persisted index only at the final persist step, so a failed rebuild
persists nothing (spec: "no partial index is persisted").  The first
component is the outcome, the second the persisted index state
afterwards (`none` = absent). -/
def saveToChroma (embed : List Char → Option (List ℚ)) (chunks : List Chunk)
    (_disk0 : Option (List (Chunk × List ℚ))) :
    Except PipeError Unit × Option (List (Chunk × List ℚ)) :=
  match chunks.mapM (fun c => (embed c.text).map (fun v => (c, v))) with
  | none => (Except.error PipeError.embeddingError, none)
  | some entries => (Except.ok (), some entries)

/-- src/database.py `generate_data_store`: load, split, save.  The
document list is the output of the external document source; an
exception escaping `split_documents` aborts before `save_to_chroma`
runs, leaving the persisted index untouched. -/
def generateDataStore (embed : List Char → Option (List ℚ))
    (docs : List Document) (disk0 : Option (List (Chunk × List ℚ))) :
    Except PipeError Unit × Option (List (Chunk × List ℚ)) :=
  match splitDocuments docs with
  | none => (Except.error PipeError.indexError, disk0)
  | some chunks => saveToChroma embed chunks disk0

/-- Descending order on scored chunks: earlier results have scores at
least as large as later ones. -/
def descRel (a b : Chunk × ℚ) : Prop := b.2 ≤ a.2

instance : DecidableRel descRel :=
  fun a b => inferInstanceAs (Decidable (b.2 ≤ a.2))

instance : IsTotal (Chunk × ℚ) descRel :=
  ⟨fun a b => le_total b.2 a.2⟩

instance : IsTrans (Chunk × ℚ) descRel :=
  ⟨fun _ _ _ h1 h2 => le_trans h2 h1⟩

/-- Modelled from the spec: the similarity search of the external Chroma
store (`similarity_search_with_relevance_scores` in src/query.py).  Per
the spec's VectorIndex contract it scores every stored entry against the
query vector, orders by descending relevance score (stable for ties),
and returns up to `k` results; the scoring function itself is the
external embedding-space similarity, taken as a parameter. -/
def searchIdx (score : List ℚ → List ℚ → ℚ) (entries : List (Chunk × List ℚ))
    (qv : List ℚ) (k : Nat) : List (Chunk × ℚ) :=
  ((entries.map (fun e => (e.1, score qv e.2))).insertionSort descRel).take k

/-- Search against the persisted index state: an absent index behaves as
an empty one (Chroma opens a fresh empty store at the persist path). -/
def diskSearch (score : List ℚ → List ℚ → ℚ)
    (disk : Option (List (Chunk × List ℚ))) (qv : List ℚ) (k : Nat) :
    List (Chunk × ℚ) :=
  match disk with
  | none => []
  | some entries => searchIdx score entries qv k

/-- If embedding every chunk succeeded, the produced entries carry
exactly the input chunks, in order. -/
theorem mapM_embed_fst (embed : List Char → Option (List ℚ)) :
    ∀ (chunks : List Chunk) (entries : List (Chunk × List ℚ)),
      chunks.mapM (fun c => (embed c.text).map (fun v => (c, v)))
          = some entries →
      entries.map Prod.fst = chunks := by
  intro chunks
  induction chunks with
  | nil =>
      intro entries h
      simp only [List.mapM_nil] at h
      cases h
      rfl
  | cons c cs ih =>
      intro entries h
      simp only [List.mapM_cons] at h
      cases hc : embed c.text with
      | none => simp [hc] at h
      | some v =>
          simp only [hc, Option.map_some', Option.some_bind,
            Option.bind_eq_bind, Option.bind_eq_some] at h
          obtain ⟨tl, htl, hcons⟩ := h
          cases hcons
          simp [ih tl htl]

/-- A document shorter than the chunk size is returned whole as a single
chunk at the given offset. -/
theorem splitWithOffsets_short (chunkSize overlap off : Nat) (s : List Char)
    (hov : overlap < chunkSize) (hs : s.length ≤ chunkSize) :
    splitWithOffsets chunkSize overlap off s = [(off, s)] := by
  rw [splitWithOffsets]
  have h0 : ¬(chunkSize = 0 ∨ chunkSize ≤ overlap) := by omega
  simp [h0, hs]

/-! ## Claim theorems -/

/-- Claim C1: for every rebuild that fails partway (embedding any single
chunk fails), no incomplete index is persisted: after `save_to_chroma`
the persisted index state is either the complete new index — an entry
per input chunk, in order — or absent, never a strict portion of the
new content.  (The prior index is removed by `shutil.rmtree` before the
build, so the failure branch leaves the path absent.) -/
theorem claim_c1_rebuild_all_or_nothing (embed : List Char → Option (List ℚ))
    (chunks : List Chunk) (disk0 : Option (List (Chunk × List ℚ))) :
    (∃ entries, saveToChroma embed chunks disk0 = (Except.ok (), some entries)
        ∧ entries.map Prod.fst = chunks)
    ∨ saveToChroma embed chunks disk0
        = (Except.error PipeError.embeddingError, none) := by
  cases hm : chunks.mapM (fun c => (embed c.text).map (fun v => (c, v))) with
  | none =>
      right
      unfold saveToChroma
      rw [hm]
  | some entries =>
      left
      refine ⟨entries, ?_, mapM_embed_fst embed chunks entries hm⟩
      unfold saveToChroma
      rw [hm]

/-- Claim C2, as stated, is false of the code: src/query.py applies no
minimum-relevance filter at all.  Counterexample: a result set whose
only result scores 0, below a configured threshold of 1, is not turned
into the no-results outcome — the query path answers with it. -/
theorem claim_c2_counterexample :
    (∀ r ∈ ([((⟨"Alice likes apples.", [("source", "data/books/a.md")]⟩ : QDoc),
        (0:ℚ))] : List (QDoc × ℚ)), r.2 < 1)
    ∧ (runQuery (fun _ => "ans") "who likes apples"
        [(⟨"Alice likes apples.", [("source", "data/books/a.md")]⟩, (0:ℚ))]).1
        ≠ QueryOutcome.noResults := by
  constructor
  · intro r hr
    simp only [List.mem_singleton] at hr
    rw [hr]
    norm_num
  · simp [runQuery]

/-- Claim C2 amended: the query path of src/query.py performs no
minimum-relevance filtering; it signals the no-results outcome exactly
when the similarity search returns an empty result list, and otherwise
answers using all returned results regardless of their scores. -/
theorem claim_c2_no_threshold_filter (complete : String → String) (q : String)
    (results : List (QDoc × ℚ)) :
    ((runQuery complete q results).1 = QueryOutcome.noResults ↔ results = [])
    ∧ (results ≠ [] →
        (runQuery complete q results).1
          = QueryOutcome.answered (complete (promptFor (contextText results) q))
              (sourcesOf results)) := by
  constructor
  · cases results with
    | nil => simp [runQuery]
    | cons a l => simp [runQuery]
  · intro hne
    have hlen : results.length ≠ 0 := by
      intro h0
      exact hne (List.length_eq_zero.mp h0)
    simp [runQuery, hlen]

/-- Witness for the amended claim C2 at a concrete result set. -/
theorem claim_c2_no_threshold_filter_witness :
    ((runQuery (fun _ => "ans") "q" [((⟨"t", []⟩ : QDoc), (0:ℚ))]).1
        = QueryOutcome.noResults ↔ [((⟨"t", []⟩ : QDoc), (0:ℚ))] = [])
    ∧ (runQuery (fun _ => "ans") "q" [((⟨"t", []⟩ : QDoc), (0:ℚ))]).1
        = QueryOutcome.answered
            ((fun _ => "ans") (promptFor (contextText [((⟨"t", []⟩ : QDoc), (0:ℚ))]) "q"))
            (sourcesOf [((⟨"t", []⟩ : QDoc), (0:ℚ))]) :=
  ⟨(claim_c2_no_threshold_filter (fun _ => "ans") "q" [(⟨"t", []⟩, (0:ℚ))]).1,
   (claim_c2_no_threshold_filter (fun _ => "ans") "q" [(⟨"t", []⟩, (0:ℚ))]).2
     (by decide)⟩

/-- Claim C3: the claim says an empty document source is not an error,
but src/database.py `split_documents` unconditionally evaluates the
debug statement `chunks[10]`, which raises `IndexError` whenever fewer
than 11 chunks exist — in particular on an empty source.  The rebuild
errors out before `save_to_chroma`, leaving the persisted index
untouched, instead of completing with zero chunks. -/
theorem claim_c3_empty_source_errors (embed : List Char → Option (List ℚ))
    (disk0 : Option (List (Chunk × List ℚ))) :
    generateDataStore embed [] disk0 = (Except.error PipeError.indexError, disk0) := by
  simp [generateDataStore, splitDocuments]

/-- Claim C4: after a successful rebuild, every search result is drawn
from the chunks of the new build, so any chunk of the prior index that
is not among the new chunks can never appear in a subsequent search
result (full replace, no stale data). -/
theorem claim_c4_rebuild_replaces_index (embed : List Char → Option (List ℚ))
    (chunks : List Chunk) (disk0 : Option (List (Chunk × List ℚ)))
    (score : List ℚ → List ℚ → ℚ) (qv : List ℚ) (k : Nat)
    (hok : (saveToChroma embed chunks disk0).1 = Except.ok ()) :
    (∀ r ∈ diskSearch score (saveToChroma embed chunks disk0).2 qv k, r.1 ∈ chunks)
    ∧ ∀ oldC : Chunk, oldC ∉ chunks →
        ∀ r ∈ diskSearch score (saveToChroma embed chunks disk0).2 qv k,
          r.1 ≠ oldC := by
  cases hm : chunks.mapM (fun c => (embed c.text).map (fun v => (c, v))) with
  | none =>
      exfalso
      unfold saveToChroma at hok
      rw [hm] at hok
      simp at hok
  | some entries =>
      have hdisk : (saveToChroma embed chunks disk0).2 = some entries := by
        unfold saveToChroma
        rw [hm]
      have hfst := mapM_embed_fst embed chunks entries hm
      have hmem : ∀ r ∈ diskSearch score (saveToChroma embed chunks disk0).2 qv k,
          r.1 ∈ chunks := by
        intro r hr
        rw [hdisk] at hr
        simp only [diskSearch] at hr
        unfold searchIdx at hr
        have hr2 := List.mem_of_mem_take hr
        rw [List.mem_insertionSort] at hr2
        obtain ⟨e, he, heq⟩ := List.mem_map.mp hr2
        rw [← heq, ← hfst]
        exact List.mem_map_of_mem Prod.fst he
      exact ⟨hmem, fun oldC hold r hr heq => hold (heq ▸ hmem r hr)⟩

/-- Witness for claim C4: a concrete successful rebuild over one chunk,
with a differing chunk in the prior index. -/
theorem claim_c4_rebuild_replaces_index_witness :
    (∀ r ∈ diskSearch (fun _ _ => (0:ℚ))
        (saveToChroma (fun _ => some [(1:ℚ)]) [⟨['a'], "a.md", 0⟩]
          (some [(⟨['b'], "b.md", 0⟩, [(2:ℚ)])])).2 [] 3,
        r.1 ∈ [(⟨['a'], "a.md", 0⟩ : Chunk)])
    ∧ ∀ oldC : Chunk, oldC ∉ [(⟨['a'], "a.md", 0⟩ : Chunk)] →
        ∀ r ∈ diskSearch (fun _ _ => (0:ℚ))
            (saveToChroma (fun _ => some [(1:ℚ)]) [⟨['a'], "a.md", 0⟩]
              (some [(⟨['b'], "b.md", 0⟩, [(2:ℚ)])])).2 [] 3,
          r.1 ≠ oldC :=
  claim_c4_rebuild_replaces_index (fun _ => some [(1:ℚ)]) [⟨['a'], "a.md", 0⟩]
    (some [(⟨['b'], "b.md", 0⟩, [(2:ℚ)])]) (fun _ _ => (0:ℚ)) [] 3 (by rfl)

/-- Claim C5: a document whose text is shorter than the configured chunk
size (500 in src/database.py) is chunked into exactly one chunk whose
start offset is 0 and whose text is the whole document. -/
theorem claim_c5_short_document_one_chunk (d : Document)
    (h : d.pageContent.length < 500) :
    splitDocument d = [{ text := d.pageContent, source := d.source, startIndex := 0 }] := by
  unfold splitDocument
  rw [splitWithOffsets_short 500 150 0 d.pageContent (by omega) (by omega)]
  rfl

/-- Witness for claim C5 at a concrete two-character document. -/
theorem claim_c5_short_document_one_chunk_witness :
    (Document.mk ['h', 'i'] "a.md").pageContent.length < 500
    ∧ splitDocument ⟨['h', 'i'], "a.md"⟩ = [⟨['h', 'i'], "a.md", 0⟩] :=
  ⟨by decide, claim_c5_short_document_one_chunk ⟨['h', 'i'], "a.md"⟩ (by decide)⟩

/-- Claim C6: search returns at most `k` results, ordered by descending
relevance score; on an index with fewer than `k` entries it returns all
of them (a permutation of every stored entry, scored), and on an empty
index it returns the empty sequence — neither case is an error. -/
theorem claim_c6_search_topk (score : List ℚ → List ℚ → ℚ)
    (entries : List (Chunk × List ℚ)) (qv : List ℚ) (k : Nat) :
    (searchIdx score entries qv k).length = min k entries.length
    ∧ List.Sorted descRel (searchIdx score entries qv k)
    ∧ (entries = [] → searchIdx score entries qv k = [])
    ∧ (entries.length ≤ k →
        List.Perm (searchIdx score entries qv k)
          (entries.map (fun e => (e.1, score qv e.2)))) := by
  have hperm := List.perm_insertionSort descRel
    (entries.map (fun e => (e.1, score qv e.2)))
  have hlen : ((entries.map (fun e => (e.1, score qv e.2))).insertionSort
      descRel).length = entries.length := by
    rw [hperm.length_eq, List.length_map]
  refine ⟨?_, ?_, ?_, ?_⟩
  · unfold searchIdx
    rw [List.length_take, hlen]
  · exact List.Pairwise.sublist (List.take_sublist _ _)
      (List.sorted_insertionSort descRel _)
  · intro he
    subst he
    simp [searchIdx]
  · intro hk
    unfold searchIdx
    rw [List.take_of_length_le (by rw [hlen]; exact hk)]
    exact hperm

/-- Witness for claim C6 at a concrete two-entry index searched with
`k = 3`. -/
theorem claim_c6_search_topk_witness :
    (searchIdx (fun _ v => v.headD 0) [(⟨['a'], "a.md", 0⟩, [(1:ℚ)]),
        (⟨['b'], "b.md", 0⟩, [(2:ℚ)])] [] 3).length
        = min 3 ([(⟨['a'], "a.md", 0⟩, [(1:ℚ)]),
            ((⟨['b'], "b.md", 0⟩ : Chunk), [(2:ℚ)])] : List (Chunk × List ℚ)).length
    ∧ List.Sorted descRel (searchIdx (fun _ v => v.headD 0)
        [(⟨['a'], "a.md", 0⟩, [(1:ℚ)]), (⟨['b'], "b.md", 0⟩, [(2:ℚ)])] [] 3)
    ∧ (([(⟨['a'], "a.md", 0⟩, [(1:ℚ)]),
          ((⟨['b'], "b.md", 0⟩ : Chunk), [(2:ℚ)])] : List (Chunk × List ℚ)) = [] →
        searchIdx (fun _ v => v.headD 0) [(⟨['a'], "a.md", 0⟩, [(1:ℚ)]),
          (⟨['b'], "b.md", 0⟩, [(2:ℚ)])] [] 3 = [])
    ∧ (([(⟨['a'], "a.md", 0⟩, [(1:ℚ)]),
          ((⟨['b'], "b.md", 0⟩ : Chunk), [(2:ℚ)])] : List (Chunk × List ℚ)).length ≤ 3 →
        List.Perm (searchIdx (fun _ v => v.headD 0) [(⟨['a'], "a.md", 0⟩, [(1:ℚ)]),
            (⟨['b'], "b.md", 0⟩, [(2:ℚ)])] [] 3)
          (([(⟨['a'], "a.md", 0⟩, [(1:ℚ)]),
              ((⟨['b'], "b.md", 0⟩ : Chunk), [(2:ℚ)])] : List (Chunk × List ℚ)).map
              (fun e => (e.1, (fun _ v => v.headD (0:ℚ)) ([] : List ℚ) e.2)))) :=
  claim_c6_search_topk (fun _ v => v.headD 0)
    [(⟨['a'], "a.md", 0⟩, [(1:ℚ)]), (⟨['b'], "b.md", 0⟩, [(2:ℚ)])] [] 3

/-- Claim C7: the assembled context is exactly the concatenation of the
retrieved texts in the order provided, with consecutive texts separated
by the fixed multi-character delimiter of src/query.py. -/
theorem claim_c7_context_is_joined_texts (results : List (QDoc × ℚ)) :
    contextText results
        = joinWithSep sepDelim (results.map (fun p => p.1.pageContent))
    ∧ 2 ≤ sepDelim.length := by
  constructor
  · unfold contextText
    exact intercalate_eq_joinWithSep sepDelim (results.map (fun p => p.1.pageContent))
  · decide

/-- Claim C8: the collected sources are the `source` metadata values of
the results, position by position in retrieval order, preserving
duplicates (one entry per chunk, never deduplicated). -/
theorem claim_c8_sources_positional (results : List (QDoc × ℚ)) (i : Nat) :
    (sourcesOf results).length = results.length
    ∧ (sourcesOf results)[i]?
        = (results[i]?).map (fun p => p.1.metadata.lookup "source") := by
  constructor
  · simp [sourcesOf]
  · simp [sourcesOf]

/-- Claim C9: when the similarity search returns zero results, the query
path terminates with the no-results outcome, builds no prompt and never
invokes the completion capability (the invocation count is 0, whatever
the capability is). -/
theorem claim_c9_empty_results_early_return (complete : String → String)
    (q : String) :
    runQuery complete q [] = (QueryOutcome.noResults, 0) := rfl

/-- Claim C10: a retrieved chunk whose metadata lacks a "source" key does
not make the query path fail: the answer is still produced and the
sources list holds `none` at that chunk's position. -/
theorem claim_c10_missing_source_key (complete : String → String) (q : String)
    (results : List (QDoc × ℚ)) (i : Nat) (p : QDoc × ℚ)
    (hp : results[i]? = some p)
    (hnone : p.1.metadata.lookup "source" = none) :
    (runQuery complete q results).1
        = QueryOutcome.answered (complete (promptFor (contextText results) q))
            (sourcesOf results)
    ∧ (sourcesOf results)[i]? = some none := by
  have hlen : results.length ≠ 0 := by
    intro h0
    rw [List.length_eq_zero] at h0
    subst h0
    simp at hp
  constructor
  · simp [runQuery, hlen]
  · simp [sourcesOf, hp, hnone]

/-- Witness for claim C10: a single result whose metadata is empty. -/
theorem claim_c10_missing_source_key_witness :
    (([((⟨"txt", []⟩ : QDoc), (1:ℚ))] : List (QDoc × ℚ))[0]?
        = some (⟨"txt", []⟩, (1:ℚ)))
    ∧ ((⟨"txt", []⟩ : QDoc), (1:ℚ)).1.metadata.lookup "source" = none
    ∧ ((runQuery (fun _ => "ans") "q" [((⟨"txt", []⟩ : QDoc), (1:ℚ))]).1
        = QueryOutcome.answered
            ((fun _ => "ans")
              (promptFor (contextText [((⟨"txt", []⟩ : QDoc), (1:ℚ))]) "q"))
            (sourcesOf [((⟨"txt", []⟩ : QDoc), (1:ℚ))])
      ∧ (sourcesOf [((⟨"txt", []⟩ : QDoc), (1:ℚ))])[0]? = some none) :=
  ⟨rfl, rfl,
   claim_c10_missing_source_key (fun _ => "ans") "q"
     [(⟨"txt", []⟩, (1:ℚ))] 0 (⟨"txt", []⟩, (1:ℚ)) rfl rfl⟩

end Rag
